import Mathlib

/-!
Verification of the chat-completion relay handler (`src/api/chat.js`).

The handler is a single serverless function: it sets CORS headers, gates on
method, checks the `FIREWORKS_API_KEY` credential, validates `model` and
`messages`, builds the upstream payload with falsy-default substitution,
and relays the upstream response either buffered (JSON) or streamed
(byte chunks decoded with a streaming `TextDecoder` and rewritten).

The embedding below models the handler as a pure function over the request,
the environment, and a mocked upstream response.  JavaScript truthiness is
modelled explicitly (`Option` for absent fields, empty string falsy, zero
falsy, arrays always truthy).  Bytes are `Nat` lists; the WHATWG streaming
UTF-8 decoder (with U+FFFD replacement) is modelled because the source
writes the *decoded* chunk (`res.write(chunk)`), not the raw bytes.
-/

set_option autoImplicit false

/-- A chat message; only its optional `content` string matters to the handler
(`m.content?.includes(...)`). -/
structure Message where
  content : Option String
deriving DecidableEq, Repr

/-- Abstract representation of a tool-definition object (forwarded opaquely). -/
structure Tool where
  data : String
deriving DecidableEq, Repr

/-- The parsed JSON request body destructured by the handler.  `none` models
an absent (or `undefined`/`null`) field. -/
structure ReqBody where
  model : Option String
  messages : Option (List Message)
  temperature : Option Rat
  top_p : Option Rat
  top_k : Option Rat
  max_tokens : Option Rat
  presence_penalty : Option Rat
  frequency_penalty : Option Rat
  stream : Option Bool
  tools : Option (List Tool)
  tool_choice : Option String
deriving DecidableEq, Repr

/-- An inbound HTTP request: its method and parsed body. -/
structure Request where
  method : String
  body : ReqBody
deriving DecidableEq, Repr

/-- Process environment: the optional `FIREWORKS_API_KEY` value. -/
structure Env where
  apiKey : Option String
deriving DecidableEq, Repr

/-- JavaScript truthiness of an optional string (absent and `""` are falsy). -/
def truthyStr : Option String → Bool
  | none => false
  | some s => !(s == "")

/-- `value || default` for an optional numeric field: absent and `0` both
fall back to the default (JavaScript falsy-default substitution). -/
def orDefault (v : Option Rat) (d : Rat) : Rat :=
  match v with
  | none => d
  | some x => if x = 0 then d else x

/-- `tools && tools.length > 0`: tools participate only when present and
non-empty (a present empty array is truthy in JS but fails `length > 0`). -/
def toolsOn (b : ReqBody) : Bool :=
  match b.tools with
  | none => false
  | some ts => decide (0 < ts.length)

/-- The payload sent to the Fireworks API. -/
structure Payload where
  model : String
  messages : List Message
  temperature : Rat
  top_p : Rat
  top_k : Rat
  max_tokens : Rat
  presence_penalty : Rat
  frequency_penalty : Rat
  stream : Bool
  tools : Option (List Tool)
  tool_choice : Option String
deriving DecidableEq, Repr

/-- `fireworksPayload` from the source: copy `model`/`messages`, substitute
falsy defaults for the numeric knobs and `stream`, and attach
`tools`/`tool_choice` only when `tools` is non-empty (and `tool_choice`
truthy). -/
def fireworksPayload (model : String) (messages : List Message) (b : ReqBody) : Payload :=
  { model := model
    messages := messages
    temperature := orDefault b.temperature 0.6
    top_p := orDefault b.top_p 1
    top_k := orDefault b.top_k 40
    max_tokens := orDefault b.max_tokens 8192
    presence_penalty := orDefault b.presence_penalty 0
    frequency_penalty := orDefault b.frequency_penalty 0
    stream := b.stream.getD false
    tools := if toolsOn b then b.tools else none
    tool_choice := if toolsOn b ∧ truthyStr b.tool_choice then b.tool_choice else none }

/-- C3: the payload copies `model` and `messages`, substitutes the documented
defaults for missing optional numeric fields, and a caller-supplied `0`
(resp. `false` for `stream`) is indistinguishable from an absent field:
the whole payload is the same as if the field were absent, so the value is
silently overwritten by the field's default. -/
theorem c3_payload_defaults (model : String) (messages : List Message) (b : ReqBody) :
    (fireworksPayload model messages b).model = model ∧
    (fireworksPayload model messages b).messages = messages ∧
    (fireworksPayload model messages { b with temperature := none }).temperature = 0.6 ∧
    (fireworksPayload model messages { b with top_p := none }).top_p = 1 ∧
    (fireworksPayload model messages { b with top_k := none }).top_k = 40 ∧
    (fireworksPayload model messages { b with max_tokens := none }).max_tokens = 8192 ∧
    (fireworksPayload model messages { b with presence_penalty := none }).presence_penalty = 0 ∧
    (fireworksPayload model messages { b with frequency_penalty := none }).frequency_penalty = 0 ∧
    (fireworksPayload model messages { b with stream := none }).stream = false ∧
    fireworksPayload model messages { b with temperature := some 0 } =
      fireworksPayload model messages { b with temperature := none } ∧
    fireworksPayload model messages { b with top_p := some 0 } =
      fireworksPayload model messages { b with top_p := none } ∧
    fireworksPayload model messages { b with top_k := some 0 } =
      fireworksPayload model messages { b with top_k := none } ∧
    fireworksPayload model messages { b with max_tokens := some 0 } =
      fireworksPayload model messages { b with max_tokens := none } ∧
    fireworksPayload model messages { b with presence_penalty := some 0 } =
      fireworksPayload model messages { b with presence_penalty := none } ∧
    fireworksPayload model messages { b with frequency_penalty := some 0 } =
      fireworksPayload model messages { b with frequency_penalty := none } ∧
    fireworksPayload model messages { b with stream := some false } =
      fireworksPayload model messages { b with stream := none } :=
  ⟨rfl, rfl, rfl, rfl, rfl, rfl, rfl, rfl, rfl, rfl, rfl, rfl, rfl, rfl, rfl, rfl⟩

/-! ### Streaming UTF-8 decode / encode

The source relays each upstream chunk as
`res.write(decoder.decode(value, { stream: true }))` — the *decoded text* is
written, not the raw bytes.  `decodeCore` models the WHATWG UTF-8 decoder
with replacement (`fatal: false`): it returns the decoded code points and the
bytes of a trailing incomplete sequence (the decoder state carried to the
next chunk by `stream: true`).  The fuel argument is always at least the
input length, so it never runs out. -/

/-- One pass of the WHATWG UTF-8 decoder with replacement.  Returns the
decoded code points and the pending bytes of a trailing incomplete
sequence. -/
def decodeCore : Nat → List Nat → List Nat × List Nat
  | 0, bs => ([], bs)
  | _ + 1, [] => ([], [])
  | fuel + 1, b :: bs =>
    if b ≤ 0x7F then
      (b :: (decodeCore fuel bs).1, (decodeCore fuel bs).2)
    else if 0xC2 ≤ b ∧ b ≤ 0xDF then
      match bs with
      | [] => ([], [b])
      | b2 :: rest =>
        if 0x80 ≤ b2 ∧ b2 ≤ 0xBF then
          (((b - 0xC0) * 64 + (b2 - 0x80)) :: (decodeCore fuel rest).1,
            (decodeCore fuel rest).2)
        else
          (0xFFFD :: (decodeCore fuel (b2 :: rest)).1, (decodeCore fuel (b2 :: rest)).2)
    else if 0xE0 ≤ b ∧ b ≤ 0xEF then
      match bs with
      | [] => ([], [b])
      | b2 :: rest2 =>
        if (if b = 0xE0 then 0xA0 else 0x80) ≤ b2 ∧ b2 ≤ (if b = 0xED then 0x9F else 0xBF) then
          match rest2 with
          | [] => ([], [b, b2])
          | b3 :: rest3 =>
            if 0x80 ≤ b3 ∧ b3 ≤ 0xBF then
              (((b - 0xE0) * 4096 + (b2 - 0x80) * 64 + (b3 - 0x80)) :: (decodeCore fuel rest3).1,
                (decodeCore fuel rest3).2)
            else
              (0xFFFD :: (decodeCore fuel (b3 :: rest3)).1, (decodeCore fuel (b3 :: rest3)).2)
        else
          (0xFFFD :: (decodeCore fuel (b2 :: rest2)).1, (decodeCore fuel (b2 :: rest2)).2)
    else if 0xF0 ≤ b ∧ b ≤ 0xF4 then
      match bs with
      | [] => ([], [b])
      | b2 :: rest2 =>
        if (if b = 0xF0 then 0x90 else 0x80) ≤ b2 ∧ b2 ≤ (if b = 0xF4 then 0x8F else 0xBF) then
          match rest2 with
          | [] => ([], [b, b2])
          | b3 :: rest3 =>
            if 0x80 ≤ b3 ∧ b3 ≤ 0xBF then
              match rest3 with
              | [] => ([], [b, b2, b3])
              | b4 :: rest4 =>
                if 0x80 ≤ b4 ∧ b4 ≤ 0xBF then
                  (((b - 0xF0) * 262144 + (b2 - 0x80) * 4096 + (b3 - 0x80) * 64 + (b4 - 0x80)) ::
                      (decodeCore fuel rest4).1,
                    (decodeCore fuel rest4).2)
                else
                  (0xFFFD :: (decodeCore fuel (b4 :: rest4)).1, (decodeCore fuel (b4 :: rest4)).2)
            else
              (0xFFFD :: (decodeCore fuel (b3 :: rest3)).1, (decodeCore fuel (b3 :: rest3)).2)
        else
          (0xFFFD :: (decodeCore fuel (b2 :: rest2)).1, (decodeCore fuel (b2 :: rest2)).2)
    else
      (0xFFFD :: (decodeCore fuel bs).1, (decodeCore fuel bs).2)

/-- `decoder.decode(chunk, { stream: true })` with carried state: the pending
bytes from the previous call are (re)processed in front of the new chunk.
The pending bytes are always a valid incomplete prefix, so restarting the
state machine on them is equivalent to resuming it. -/
def decodeChunk (pending chunk : List Nat) : List Nat × List Nat :=
  decodeCore (pending ++ chunk).length (pending ++ chunk)

/-- UTF-8 encoding of one Unicode code point (what `res.write(string)` emits
per character). -/
def encodeCp (c : Nat) : List Nat :=
  if c ≤ 0x7F then [c]
  else if c ≤ 0x7FF then [0xC0 + c / 64, 0x80 + c % 64]
  else if c ≤ 0xFFFF then [0xE0 + c / 4096, 0x80 + (c / 64) % 64, 0x80 + c % 64]
  else [0xF0 + c / 262144, 0x80 + (c / 4096) % 64, 0x80 + (c / 64) % 64, 0x80 + c % 64]

/-- UTF-8 encoding of a sequence of code points. -/
def encodeCps (cs : List Nat) : List Nat :=
  (cs.map encodeCp).flatten

/-- The UTF-8 bytes `res.write` emits for a string literal. -/
def strUtf8 (s : String) : List Nat :=
  encodeCps (s.data.map Char.toNat)

/-- The relay loop of the streaming branch: for each upstream chunk, write
the re-encoded bytes of its streaming decode; decoder state (pending bytes)
is carried across chunks, and a pending sequence left at end of stream is
dropped (the source never flushes the decoder). -/
def relayLoop : List Nat → List (List Nat) → List (List Nat)
  | _, [] => []
  | pending, c :: cs =>
    encodeCps (decodeChunk pending c).1 :: relayLoop (decodeChunk pending c).2 cs

/-- Well-formed UTF-8 byte sequences: exactly those accepted without
replacement by the WHATWG decoder (no overlong forms, no surrogates,
maximum U+10FFFF). -/
inductive ValidUtf8 : List Nat → Prop where
  | nil : ValidUtf8 []
  | ascii {b : Nat} {bs : List Nat} : b ≤ 0x7F → ValidUtf8 bs → ValidUtf8 (b :: bs)
  | two {b1 b2 : Nat} {bs : List Nat} :
      0xC2 ≤ b1 → b1 ≤ 0xDF → 0x80 ≤ b2 → b2 ≤ 0xBF →
      ValidUtf8 bs → ValidUtf8 (b1 :: b2 :: bs)
  | three {b1 b2 b3 : Nat} {bs : List Nat} :
      0xE0 ≤ b1 → b1 ≤ 0xEF →
      (if b1 = 0xE0 then 0xA0 else 0x80) ≤ b2 → b2 ≤ (if b1 = 0xED then 0x9F else 0xBF) →
      0x80 ≤ b3 → b3 ≤ 0xBF →
      ValidUtf8 bs → ValidUtf8 (b1 :: b2 :: b3 :: bs)
  | four {b1 b2 b3 b4 : Nat} {bs : List Nat} :
      0xF0 ≤ b1 → b1 ≤ 0xF4 →
      (if b1 = 0xF0 then 0x90 else 0x80) ≤ b2 → b2 ≤ (if b1 = 0xF4 then 0x8F else 0xBF) →
      0x80 ≤ b3 → b3 ≤ 0xBF → 0x80 ≤ b4 → b4 ≤ 0xBF →
      ValidUtf8 bs → ValidUtf8 (b1 :: b2 :: b3 :: b4 :: bs)

/-- On well-formed UTF-8 input the decoder consumes everything (no pending
state) and re-encoding the decoded code points restores the input bytes. -/
theorem decode_valid {c : List Nat} (hv : ValidUtf8 c) :
    ∀ fuel, c.length ≤ fuel →
      (decodeCore fuel c).2 = [] ∧ encodeCps (decodeCore fuel c).1 = c := by
  induction hv with
  | nil =>
    intro fuel _
    cases fuel <;> simp [decodeCore, encodeCps]
  | ascii hb hrest ih =>
    rename_i b bs
    intro fuel hlen
    obtain ⟨f, rfl⟩ : ∃ f, fuel = f + 1 := ⟨fuel - 1, by simp at hlen; omega⟩
    have hrec := ih f (by simp at hlen ⊢; omega)
    simp only [decodeCore, if_pos hb]
    refine ⟨hrec.1, ?_⟩
    simp only [encodeCps, List.map_cons, List.flatten_cons] at hrec ⊢
    rw [hrec.2, encodeCp, if_pos hb]
    rfl
  | two h1 h2 h3 h4 hrest ih =>
    rename_i b1 b2 bs
    intro fuel hlen
    obtain ⟨f, rfl⟩ : ∃ f, fuel = f + 1 := ⟨fuel - 1, by simp at hlen; omega⟩
    have hrec := ih f (by simp at hlen ⊢; omega)
    simp only [decodeCore, if_neg (by omega : ¬ b1 ≤ 0x7F), if_pos (And.intro h1 h2),
      if_pos (And.intro h3 h4)]
    refine ⟨hrec.1, ?_⟩
    simp only [encodeCps, List.map_cons, List.flatten_cons] at hrec ⊢
    rw [hrec.2, encodeCp, if_neg (by omega), if_pos (by omega)]
    have e1 : 0xC0 + ((b1 - 0xC0) * 64 + (b2 - 0x80)) / 64 = b1 := by omega
    have e2 : 0x80 + ((b1 - 0xC0) * 64 + (b2 - 0x80)) % 64 = b2 := by omega
    rw [e1, e2]
    rfl
  | three h1 h2 h3 h4 h5 h6 hrest ih =>
    rename_i b1 b2 b3 bs
    intro fuel hlen
    obtain ⟨f, rfl⟩ : ∃ f, fuel = f + 1 := ⟨fuel - 1, by simp at hlen; omega⟩
    have hrec := ih f (by simp at hlen ⊢; omega)
    simp only [decodeCore, if_neg (by omega : ¬ b1 ≤ 0x7F),
      if_neg (by omega : ¬ (0xC2 ≤ b1 ∧ b1 ≤ 0xDF)), if_pos (And.intro h1 h2),
      if_pos (And.intro h3 h4), if_pos (And.intro h5 h6)]
    refine ⟨hrec.1, ?_⟩
    simp only [encodeCps, List.map_cons, List.flatten_cons] at hrec ⊢
    have hb2lo : 0x80 ≤ b2 := by split_ifs at h3 <;> omega
    have hb2hi : b2 ≤ 0xBF := by split_ifs at h4 <;> omega
    have hlow : 0x800 ≤ (b1 - 0xE0) * 4096 + (b2 - 0x80) * 64 + (b3 - 0x80) := by
      by_cases hE : b1 = 0xE0
      · rw [if_pos hE] at h3; omega
      · have : 0xE1 ≤ b1 := by omega
        omega
    rw [hrec.2, encodeCp, if_neg (by omega), if_neg (by omega), if_pos (by omega)]
    have e1 : 0xE0 + ((b1 - 0xE0) * 4096 + (b2 - 0x80) * 64 + (b3 - 0x80)) / 4096 = b1 := by omega
    have e2 : 0x80 + (((b1 - 0xE0) * 4096 + (b2 - 0x80) * 64 + (b3 - 0x80)) / 64) % 64 = b2 := by
      omega
    have e3 : 0x80 + ((b1 - 0xE0) * 4096 + (b2 - 0x80) * 64 + (b3 - 0x80)) % 64 = b3 := by omega
    rw [e1, e2, e3]
    rfl
  | four h1 h2 h3 h4 h5 h6 h7 h8 hrest ih =>
    rename_i b1 b2 b3 b4 bs
    intro fuel hlen
    obtain ⟨f, rfl⟩ : ∃ f, fuel = f + 1 := ⟨fuel - 1, by simp at hlen; omega⟩
    have hrec := ih f (by simp at hlen ⊢; omega)
    simp only [decodeCore, if_neg (by omega : ¬ b1 ≤ 0x7F),
      if_neg (by omega : ¬ (0xC2 ≤ b1 ∧ b1 ≤ 0xDF)),
      if_neg (by omega : ¬ (0xE0 ≤ b1 ∧ b1 ≤ 0xEF)), if_pos (And.intro h1 h2),
      if_pos (And.intro h3 h4), if_pos (And.intro h5 h6), if_pos (And.intro h7 h8)]
    refine ⟨hrec.1, ?_⟩
    simp only [encodeCps, List.map_cons, List.flatten_cons] at hrec ⊢
    have hb2lo : 0x80 ≤ b2 := by split_ifs at h3 <;> omega
    have hb2hi : b2 ≤ 0xBF := by split_ifs at h4 <;> omega
    have hlow : 0x10000 ≤ (b1 - 0xF0) * 262144 + (b2 - 0x80) * 4096 + (b3 - 0x80) * 64 +
        (b4 - 0x80) := by
      by_cases hF : b1 = 0xF0
      · rw [if_pos hF] at h3; omega
      · have : 0xF1 ≤ b1 := by omega
        omega
    rw [hrec.2, encodeCp, if_neg (by omega), if_neg (by omega), if_neg (by omega)]
    have e1 : 0xF0 + ((b1 - 0xF0) * 262144 + (b2 - 0x80) * 4096 + (b3 - 0x80) * 64 +
        (b4 - 0x80)) / 262144 = b1 := by omega
    have e2 : 0x80 + (((b1 - 0xF0) * 262144 + (b2 - 0x80) * 4096 + (b3 - 0x80) * 64 +
        (b4 - 0x80)) / 4096) % 64 = b2 := by omega
    have e3 : 0x80 + (((b1 - 0xF0) * 262144 + (b2 - 0x80) * 4096 + (b3 - 0x80) * 64 +
        (b4 - 0x80)) / 64) % 64 = b3 := by omega
    have e4 : 0x80 + ((b1 - 0xF0) * 262144 + (b2 - 0x80) * 4096 + (b3 - 0x80) * 64 +
        (b4 - 0x80)) % 64 = b4 := by omega
    rw [e1, e2, e3, e4]
    rfl

/-- On a stream whose chunks are each well-formed UTF-8, the relay loop is
the identity: every chunk is written back byte-for-byte. -/
theorem relayLoop_valid : ∀ cs : List (List Nat), (∀ c ∈ cs, ValidUtf8 c) →
    relayLoop [] cs = cs := by
  intro cs
  induction cs with
  | nil => intro _; rfl
  | cons c cs ih =>
    intro hv
    have hc := decode_valid (hv c (by simp)) c.length (le_refl _)
    simp only [relayLoop, decodeChunk, List.nil_append]
    rw [hc.1, hc.2, ih (fun d hd => hv d (by simp [hd]))]

/-- Every list of ASCII bytes is well-formed UTF-8. -/
theorem ascii_valid : ∀ c : List Nat, (∀ b ∈ c, b ≤ 0x7F) → ValidUtf8 c := by
  intro c
  induction c with
  | nil => intro _; exact ValidUtf8.nil
  | cons b bs ih =>
    intro h
    exact ValidUtf8.ascii (h b (by simp)) (ih (fun x hx => h x (by simp [hx])))

/-! ### Response model and the handler -/

/-- A JSON value (the shape of buffered response bodies). -/
inductive Json where
  | null
  | bool (b : Bool)
  | num (q : Rat)
  | str (s : String)
  | arr (xs : List Json)
  | obj (fields : List (String × Json))

/-- A response body: empty (`res.end()` with no JSON) or a JSON document
(`res.json(...)`).  Streamed bytes are recorded separately on the wire. -/
inductive Body where
  | empty
  | json (j : Json)

/-- `{ error: e }` -/
def errBody (e : String) : Json :=
  Json.obj [("error", Json.str e)]

/-- `{ error: e, message: m }` -/
def errBodyMsg (e m : String) : Json :=
  Json.obj [("error", Json.str e), ("message", Json.str m)]

/-- `res.setHeader(n, v)`: replace the header if present, else append it. -/
def setHeader (hs : List (String × String)) (n v : String) : List (String × String) :=
  if hs.any (fun p => p.1 == n) then
    hs.map (fun p => if p.1 == n then (n, v) else p)
  else
    hs ++ [(n, v)]

/-- Look up a response header by name. -/
def getHeader (hs : List (String × String)) (n : String) : Option String :=
  (hs.find? (fun p => p.1 == n)).map (fun p => p.2)

/-- The CORS headers set unconditionally at the top of the handler. -/
def baseHeaders : List (String × String) :=
  setHeader
    (setHeader
      (setHeader [] "Access-Control-Allow-Origin" "*")
      "Access-Control-Allow-Methods" "GET, POST, OPTIONS")
    "Access-Control-Allow-Headers" "Content-Type, Authorization"

/-- The header reissue of the streaming branch: event-stream headers plus the
CORS headers again — note `Access-Control-Allow-Headers` is overwritten with
plain `"Content-Type"` (the `Authorization` entry is dropped here in the
source). -/
def streamHeaders (hs : List (String × String)) : List (String × String) :=
  setHeader
    (setHeader
      (setHeader
        (setHeader
          (setHeader
            (setHeader hs "Content-Type" "text/event-stream")
            "Cache-Control" "no-cache")
          "Connection" "keep-alive")
        "Access-Control-Allow-Origin" "*")
      "Access-Control-Allow-Methods" "GET, POST, OPTIONS")
    "Access-Control-Allow-Headers" "Content-Type"

/-- How the mocked upstream body stream ends: normal end-of-data, or a read
failure thrown by `reader.read()` after all chunks were delivered. -/
inductive StreamTail where
  | eof
  | readError
deriving DecidableEq, Repr

/-- A mocked upstream readable body: the byte chunks it emits, then how it
ends. -/
structure UpstreamStream where
  chunks : List (List Nat)
  tail : StreamTail
deriving DecidableEq, Repr

/-- The mocked upstream `fetch` response: status, the error body text
(`response.text()`), the parsed JSON document (`response.json()`), and the
readable body for streaming (`response.body`, `none` when absent). -/
structure UpstreamResp where
  status : Nat
  bodyText : String
  bodyJson : Json
  body : Option UpstreamStream

/-- `response.ok`: status in the inclusive range 200–299. -/
def respOk (u : UpstreamResp) : Bool :=
  decide (200 ≤ u.status ∧ u.status ≤ 299)

/-- `!model || !messages`: the model string is falsy when absent or empty;
`messages` (an array) is falsy only when absent — an empty array is truthy. -/
def missingFields (b : ReqBody) : Bool :=
  !truthyStr b.model || b.messages.isNone

/-- `if (stream)`: the destructured `stream` value is truthy. -/
def streamOn (b : ReqBody) : Bool :=
  b.stream.getD false

/-- The payload the handler builds after validation (the destructured
`model`/`messages` are known truthy at this point). -/
def sentPayload (b : ReqBody) : Payload :=
  fireworksPayload (b.model.getD "") (b.messages.getD []) b

/-- The terminal server-sent-event error frame written by the streaming
catch block. -/
def errEventText : String :=
  "data: \x7b\"error\": \"Streaming interrupted\"\x7d\n\n"

/-- The bytes of the terminal error frame (`res.write` of an ASCII string). -/
def errEventBytes : List Nat :=
  strUtf8 errEventText

/-- The externally observable outcome of one handler invocation:
HTTP status, response headers, buffered body, the byte chunks written to the
outbound stream (in order), and the payload sent upstream (`none` when no
upstream call was made). -/
structure Result where
  status : Nat
  headers : List (String × String)
  body : Body
  wire : List (List Nat)
  sent : Option Payload

/-- The fixed marker substrings of the Chain-of-Draft detection. -/
def codMarkers : List String :=
  ["EMBEDDED REFLECTION", "TOKEN-BASED REFLECTION", "REFLECTION AFTER",
   "Chain of Draft", "~150 tokens", "embed reflections immediately"]

/-- Substring containment (`String.includes` of JavaScript). -/
def containsSub (hay needle : String) : Bool :=
  (List.range (hay.length + 1)).any fun i => needle.data.isPrefixOf (hay.data.drop i)

/-- `hasAdvancedCoD` from the source: some message's content contains one of
the reflection markers (`m.content?.includes(...)`; a message without
content matches nothing). -/
def hasAdvancedCoD (messages : List Message) : Bool :=
  messages.any fun m =>
    match m.content with
    | some c => codMarkers.any fun p => containsSub c p
    | none => false

/-! ### The response-analysis block of the non-streaming branch

When `hasAdvancedCoD` holds, the source evaluates
`data.choices?.[0]?.message?.content` on the decoded upstream document and,
when that value is truthy, calls `.match`/`.substring` on it.  This is not
throw-free: the leading `data.choices` is a plain access that throws a
`TypeError` when `data` is `null`, and `.match` throws when the truthy
content is not a string.  Either throw is caught by the outer `catch`,
turning the response into a 500.  The definitions below model that JS
evaluation. -/

/-- JS property access `j.k` on a non-null value: a field of an object,
`undefined` (here `none`) on every other receiver. -/
def propAccess (j : Json) (k : String) : Option Json :=
  match j with
  | Json.obj fs => (fs.find? (fun p => p.1 == k)).map (fun p => p.2)
  | _ => none

/-- JS index access `j[0]` on a non-null value: first element of an array,
the `"0"` field of an object, the first character of a string, `undefined`
otherwise. -/
def idx0 : Json → Option Json
  | Json.arr xs => xs.head?
  | Json.obj fs => (fs.find? (fun p => p.1 == "0")).map (fun p => p.2)
  | Json.str s => (s.data.head?).map (fun ch => Json.str (String.mk [ch]))
  | _ => none

/-- Optional chaining `v?.…`: short-circuits to `undefined` on `undefined`
and on `null`, otherwise applies the access. -/
def optChain (v : Option Json) (f : Json → Option Json) : Option Json :=
  match v with
  | none => none
  | some Json.null => none
  | some j => f j

/-- JS truthiness of a possibly-`undefined` JSON value. -/
def truthyJson : Option Json → Bool
  | none => false
  | some Json.null => false
  | some (Json.bool b) => b
  | some (Json.num q) => decide (q ≠ 0)
  | some (Json.str s) => decide (s ≠ "")
  | some (Json.arr _) => true
  | some (Json.obj _) => true

/-- `data.choices?.[0]?.message?.content`: the leading plain access throws
(`Except.error`) when `data` is `null`; the rest of the chain is guarded by
`?.` and cannot throw. -/
def codContent (data : Json) : Except Unit (Option Json) :=
  match data with
  | Json.null => Except.error ()
  | _ =>
    Except.ok (optChain (optChain (optChain (propAccess data "choices") idx0)
      (fun j => propAccess j "message")) (fun j => propAccess j "content"))

/-- Whether the response-analysis block throws a `TypeError`: only when the
request messages carry a reflection marker, and then either `data` is `null`
(plain `data.choices` access) or the content value is truthy but not a
string (`responseContent.match` is not a function). -/
def codAnalysisThrows (messages : List Message) (data : Json) : Bool :=
  if hasAdvancedCoD messages then
    match codContent data with
    | Except.error _ => true
    | Except.ok c =>
      if truthyJson c then
        match c with
        | some (Json.str _) => false
        | _ => true
      else false
  else false

/-- The `error.message` carried by the 500 of the collapsed analysis throw.
The exact text is produced by the JS engine at runtime (shown here as V8
words it); no claim depends on this string. -/
def codThrowMsg (data : Json) : String :=
  match data with
  | Json.null => "Cannot read properties of null (reading choices)"
  | _ => "responseContent.match is not a function"

/-- The relay handler (`module.exports` of `src/api/chat.js`) as a function
of the environment, the inbound request, and the mocked upstream response.
Control flow follows the source exactly: CORS headers, OPTIONS preflight,
method gate, credential check, field validation, payload construction, then
the streaming or buffered relay; on the buffered success path the
response-analysis block may throw, which the outer catch turns into a
500. -/
def handle (env : Env) (req : Request) (u : UpstreamResp) : Result :=
  if req.method = "OPTIONS" then
    { status := 200, headers := baseHeaders, body := Body.empty, wire := [], sent := none }
  else if req.method ≠ "POST" then
    { status := 405, headers := baseHeaders, body := Body.json (errBody "Method not allowed"),
      wire := [], sent := none }
  else if !truthyStr env.apiKey then
    { status := 500, headers := baseHeaders,
      body := Body.json (errBodyMsg "Server configuration error"
        "API key not configured. Please check server environment variables."),
      wire := [], sent := none }
  else if missingFields req.body then
    { status := 400, headers := baseHeaders,
      body := Body.json (errBodyMsg "Bad request" "Missing required fields: model and messages"),
      wire := [], sent := none }
  else if streamOn req.body then
    if !respOk u then
      { status := u.status, headers := baseHeaders,
        body := Body.json (errBodyMsg "API request failed" u.bodyText),
        wire := [], sent := some (sentPayload req.body) }
    else
      match u.body with
      | none =>
        { status := 500, headers := streamHeaders baseHeaders,
          body := Body.json (errBody "No response body from API"),
          wire := [], sent := some (sentPayload req.body) }
      | some s =>
        { status := 200, headers := streamHeaders baseHeaders, body := Body.empty,
          wire := relayLoop [] s.chunks ++
            (match s.tail with
             | StreamTail.eof => []
             | StreamTail.readError => [errEventBytes]),
          sent := some (sentPayload req.body) }
  else
    if !respOk u then
      { status := u.status, headers := baseHeaders,
        body := Body.json (errBodyMsg "API request failed" u.bodyText),
        wire := [], sent := some (sentPayload req.body) }
    else if codAnalysisThrows (req.body.messages.getD []) u.bodyJson then
      { status := 500, headers := baseHeaders,
        body := Body.json (errBodyMsg "Internal server error" (codThrowMsg u.bodyJson)),
        wire := [], sent := some (sentPayload req.body) }
    else
      { status := 200, headers := baseHeaders, body := Body.json u.bodyJson,
        wire := [], sent := some (sentPayload req.body) }

/-! ### Helper lemmas about the handler -/

/-- The condition under which the streaming header reissue has happened:
valid streaming POST whose upstream call returned a success status. -/
def streamPathB (env : Env) (req : Request) (u : UpstreamResp) : Bool :=
  decide (req.method = "POST") && truthyStr env.apiKey && !missingFields req.body &&
    streamOn req.body && respOk u

/-- The response headers are the three base CORS headers, except on the
streaming path after the upstream succeeded, where the event-stream headers
are added and `Access-Control-Allow-Headers` is overwritten. -/
theorem handle_headers_eq (env : Env) (req : Request) (u : UpstreamResp) :
    (handle env req u).headers =
      if streamPathB env req u then streamHeaders baseHeaders else baseHeaders := by
  unfold handle streamPathB
  by_cases h1 : req.method = "OPTIONS"
  · simp [h1]
  · by_cases h2 : req.method = "POST"
    · by_cases h3 : truthyStr env.apiKey
      · by_cases h4 : missingFields req.body
        · simp [h1, h2, h3, h4]
        · by_cases h5 : streamOn req.body
          · by_cases h6 : respOk u
            · cases hb : u.body <;> simp [h1, h2, h3, h4, h5, h6, hb]
            · simp [h1, h2, h3, h4, h5, h6]
          · simp [h1, h2, h3, h4, h5]
            split_ifs <;> rfl
      · simp [h1, h2, h3]
    · simp [h1, h2]

/-- Two requests that differ only in their (present) message lists get
identical responses (status, headers, body, wire) for the same upstream
response, provided the response-analysis block throws for both or for
neither.  Apart from that throw, the messages reach only the upstream
payload and the logs. -/
theorem handle_resp_messages (env : Env) (meth : String) (b : ReqBody) (u : UpstreamResp)
    (m1 m2 : List Message)
    (heq : codAnalysisThrows m1 u.bodyJson = codAnalysisThrows m2 u.bodyJson) :
    (handle env ⟨meth, { b with messages := some m1 }⟩ u).status =
      (handle env ⟨meth, { b with messages := some m2 }⟩ u).status ∧
    (handle env ⟨meth, { b with messages := some m1 }⟩ u).headers =
      (handle env ⟨meth, { b with messages := some m2 }⟩ u).headers ∧
    (handle env ⟨meth, { b with messages := some m1 }⟩ u).body =
      (handle env ⟨meth, { b with messages := some m2 }⟩ u).body ∧
    (handle env ⟨meth, { b with messages := some m1 }⟩ u).wire =
      (handle env ⟨meth, { b with messages := some m2 }⟩ u).wire := by
  by_cases h1 : meth = "OPTIONS"
  · simp [handle, h1]
  · by_cases h2 : meth = "POST"
    · by_cases h3 : truthyStr env.apiKey
      · by_cases h4 : truthyStr b.model
        · by_cases h5 : b.stream.getD false
          · by_cases h6 : respOk u
            · cases hb : u.body <;>
                simp [handle, missingFields, streamOn, h1, h2, h3, h4, h5, h6, hb]
            · simp [handle, missingFields, streamOn, h1, h2, h3, h4, h5, h6]
          · simp [handle, missingFields, streamOn, h1, h2, h3, h4, h5, heq]
            split_ifs <;> simp
        · simp [handle, missingFields, h1, h2, h3, h4]
      · simp [handle, h1, h2, h3]
    · simp [handle, h1, h2]

/-! ### Concrete fixtures -/

/-- An environment with the credential configured. -/
def envOK : Env := ⟨some "test-key"⟩

/-- An environment with the credential unset. -/
def envNoKey : Env := ⟨none⟩

/-- A valid non-streaming request body. -/
def validBody : ReqBody :=
  { model := some "accounts/fireworks/models/test"
    messages := some [⟨some "hi"⟩]
    temperature := none, top_p := none, top_k := none, max_tokens := none
    presence_penalty := none, frequency_penalty := none
    stream := none, tools := none, tool_choice := none }

/-- A valid streaming request body. -/
def streamBody : ReqBody := { validBody with stream := some true }

/-- An upstream success response carrying a readable stream. -/
def uStream (cs : List (List Nat)) (t : StreamTail) : UpstreamResp :=
  ⟨200, "", Json.null, some ⟨cs, t⟩⟩

/-- An upstream success response carrying a JSON document. -/
def uDoc : UpstreamResp :=
  ⟨200, "", Json.obj [("choices", Json.arr [Json.str "ok"])], none⟩

/-! ### Claims -/

/-- C1 (counterexample): the relay is not byte-pass-through.  On a valid
streaming request whose upstream emits the single chunk `[0xFF]` and ends,
the handler does not write `[0xFF]`: the streaming decode replaces the
malformed byte with U+FFFD, so the bytes written are `EF BF BD`. -/
theorem c1_counterexample :
    (handle envOK ⟨"POST", streamBody⟩ (uStream [[0xFF]] StreamTail.eof)).wire
        = [[0xEF, 0xBF, 0xBD]] ∧
    (handle envOK ⟨"POST", streamBody⟩ (uStream [[0xFF]] StreamTail.eof)).wire
        ≠ [[0xFF]] := by
  decide

/-- C1 (amended): for every valid streaming request whose upstream succeeds
with body chunks `cs` and then ends, *provided each chunk is a well-formed
UTF-8 sequence*, the handler writes exactly the chunks `cs`, unmodified and
in order, and closes the stream normally (no error frame, no buffered
body). -/
theorem c1_stream_relay (env : Env) (req : Request) (u : UpstreamResp)
    (cs : List (List Nat))
    (hm : req.method = "POST") (hk : truthyStr env.apiKey = true)
    (hf : missingFields req.body = false) (hs : streamOn req.body = true)
    (hok : respOk u = true) (hb : u.body = some ⟨cs, StreamTail.eof⟩)
    (hv : ∀ c ∈ cs, ValidUtf8 c) :
    (handle env req u).wire = cs ∧ (handle env req u).status = 200 ∧
      (handle env req u).body = Body.empty := by
  simp [handle, hm, hk, hf, hs, hok, hb, relayLoop_valid cs hv]

/-- C1 witness: two plain ASCII event frames are relayed verbatim. -/
theorem c1_stream_relay_witness :
    (handle envOK ⟨"POST", streamBody⟩
        (uStream [strUtf8 "data: alpha\n\n", strUtf8 "data: beta\n\n"] StreamTail.eof)).wire
      = [strUtf8 "data: alpha\n\n", strUtf8 "data: beta\n\n"] ∧
    (handle envOK ⟨"POST", streamBody⟩
        (uStream [strUtf8 "data: alpha\n\n", strUtf8 "data: beta\n\n"] StreamTail.eof)).status
      = 200 ∧
    (handle envOK ⟨"POST", streamBody⟩
        (uStream [strUtf8 "data: alpha\n\n", strUtf8 "data: beta\n\n"] StreamTail.eof)).body
      = Body.empty := by
  refine c1_stream_relay envOK ⟨"POST", streamBody⟩ _ _ rfl (by decide) (by decide) (by decide)
    (by decide) rfl ?_
  intro c hc
  simp at hc
  rcases hc with rfl | rfl <;> exact ascii_valid _ (by decide)

/-- C2 (counterexample): decode-then-re-encode is not unconditionally the
identity.  A valid non-streaming request whose messages carry a reflection
marker, against a 200 upstream whose JSON document is `null`, gets a 500:
`data.choices` throws on `null` inside the response-analysis block and the
outer catch replaces the response — not status 200 with body `null`. -/
theorem c2_counterexample :
    (handle envOK ⟨"POST", { validBody with messages := some [⟨some "Chain of Draft"⟩] }⟩
        ⟨200, "", Json.null, none⟩).status = 500 ∧
    (handle envOK ⟨"POST", { validBody with messages := some [⟨some "Chain of Draft"⟩] }⟩
        ⟨200, "", Json.null, none⟩).status ≠ 200 := by
  decide

/-- C2 (amended): for every valid non-streaming request whose upstream
returns a success status with JSON document `B`, *provided the
response-analysis block does not throw* (no reflection marker in the
messages, or `B`'s `choices[0].message.content` path is falsy or a string),
the handler responds 200 with body exactly `B` — decode then re-encode is
the identity, with no field remapping. -/
theorem c2_nonstream_roundtrip (env : Env) (req : Request) (u : UpstreamResp)
    (hm : req.method = "POST") (hk : truthyStr env.apiKey = true)
    (hf : missingFields req.body = false) (hs : streamOn req.body = false)
    (hok : respOk u = true)
    (hthrow : codAnalysisThrows (req.body.messages.getD []) u.bodyJson = false) :
    (handle env req u).status = 200 ∧ (handle env req u).body = Body.json u.bodyJson := by
  simp [handle, hm, hk, hf, hs, hok, hthrow]

/-- C2 witness: a concrete valid non-streaming request against a mocked 200
upstream document. -/
theorem c2_nonstream_roundtrip_witness :
    (handle envOK ⟨"POST", validBody⟩ uDoc).status = 200 ∧
    (handle envOK ⟨"POST", validBody⟩ uDoc).body = Body.json uDoc.bodyJson :=
  c2_nonstream_roundtrip envOK ⟨"POST", validBody⟩ uDoc rfl (by decide) (by decide)
    (by decide) (by decide) (by decide)

/-- C4 (counterexample): when the upstream emits `[0xFF]` and then the read
fails, the handler does not write `[0xFF]` before the terminal error event —
the malformed byte was replaced by U+FFFD (`EF BF BD`). -/
theorem c4_counterexample :
    (handle envOK ⟨"POST", streamBody⟩ (uStream [[0xFF]] StreamTail.readError)).wire
        = [[0xEF, 0xBF, 0xBD], errEventBytes] ∧
    (handle envOK ⟨"POST", streamBody⟩ (uStream [[0xFF]] StreamTail.readError)).wire
        ≠ [[0xFF], errEventBytes] := by
  decide

/-- C4 (amended): for every valid streaming request whose upstream succeeds
but whose body read fails after emitting chunks `cs`, *provided each chunk
is well-formed UTF-8*, the handler writes exactly `cs` followed by the
single terminal error event `data: {"error": "Streaming interrupted"}` plus
a blank line, then closes the stream; it makes exactly one upstream call and
produces no buffered body (no retry, no fallback). -/
theorem c4_stream_error (env : Env) (req : Request) (u : UpstreamResp)
    (cs : List (List Nat))
    (hm : req.method = "POST") (hk : truthyStr env.apiKey = true)
    (hf : missingFields req.body = false) (hs : streamOn req.body = true)
    (hok : respOk u = true) (hb : u.body = some ⟨cs, StreamTail.readError⟩)
    (hv : ∀ c ∈ cs, ValidUtf8 c) :
    (handle env req u).wire = cs ++ [errEventBytes] ∧
      (handle env req u).body = Body.empty ∧
      (handle env req u).sent = some (sentPayload req.body) := by
  simp [handle, hm, hk, hf, hs, hok, hb, relayLoop_valid cs hv]

/-- C4 witness: one ASCII frame relayed, then the error event. -/
theorem c4_stream_error_witness :
    (handle envOK ⟨"POST", streamBody⟩
        (uStream [strUtf8 "data: alpha\n\n"] StreamTail.readError)).wire
      = [strUtf8 "data: alpha\n\n"] ++ [errEventBytes] ∧
    (handle envOK ⟨"POST", streamBody⟩
        (uStream [strUtf8 "data: alpha\n\n"] StreamTail.readError)).body
      = Body.empty ∧
    (handle envOK ⟨"POST", streamBody⟩
        (uStream [strUtf8 "data: alpha\n\n"] StreamTail.readError)).sent
      = some (sentPayload streamBody) := by
  refine c4_stream_error envOK ⟨"POST", streamBody⟩ _ _ rfl (by decide) (by decide) (by decide)
    (by decide) rfl ?_
  intro c hc
  simp at hc
  subst hc
  exact ascii_valid _ (by decide)

/-- C5: for every valid POST request (streaming or not) whose upstream
responds with a non-success status, the handler relays that status with body
`{error: "API request failed", message: <upstream body text>}`, buffered:
nothing is written to the outbound stream and the headers are still the base
CORS headers (no event-stream headers). -/
theorem c5_upstream_error (env : Env) (req : Request) (u : UpstreamResp)
    (hm : req.method = "POST") (hk : truthyStr env.apiKey = true)
    (hf : missingFields req.body = false) (hok : respOk u = false) :
    (handle env req u).status = u.status ∧
      (handle env req u).body = Body.json (errBodyMsg "API request failed" u.bodyText) ∧
      (handle env req u).wire = [] ∧
      (handle env req u).headers = baseHeaders := by
  by_cases hs : streamOn req.body <;> simp [handle, hm, hk, hf, hs, hok]

/-- C5 witness: a 429 upstream with body text `T` on a streaming request. -/
theorem c5_upstream_error_witness :
    (handle envOK ⟨"POST", streamBody⟩ ⟨429, "T", Json.null, none⟩).status = 429 ∧
    (handle envOK ⟨"POST", streamBody⟩ ⟨429, "T", Json.null, none⟩).body
      = Body.json (errBodyMsg "API request failed" "T") ∧
    (handle envOK ⟨"POST", streamBody⟩ ⟨429, "T", Json.null, none⟩).wire = [] ∧
    (handle envOK ⟨"POST", streamBody⟩ ⟨429, "T", Json.null, none⟩).headers = baseHeaders :=
  c5_upstream_error envOK ⟨"POST", streamBody⟩ ⟨429, "T", Json.null, none⟩ rfl (by decide)
    (by decide) (by decide)

/-- C6 (counterexample): a POST with the credential present, a truthy model
and `messages: []` (an empty array) is *not* rejected with 400 — an empty
array is truthy in JavaScript, so validation passes and the upstream is
called. -/
theorem c6_counterexample :
    (handle envOK ⟨"POST", { validBody with messages := some [] }⟩
        ⟨200, "", Json.null, none⟩).status = 200 ∧
    (handle envOK ⟨"POST", { validBody with messages := some [] }⟩
        ⟨200, "", Json.null, none⟩).sent.isSome = true := by
  constructor
  · rfl
  · decide

/-- C6 (amended): for every POST with the credential present whose body has
a falsy `model` (absent or empty string) or an *absent* `messages` field,
the handler returns 400 with the exact error body and makes no upstream
call.  (A present-but-empty `messages` array passes validation.) -/
theorem c6_validation (env : Env) (req : Request) (u : UpstreamResp)
    (hm : req.method = "POST") (hk : truthyStr env.apiKey = true)
    (hmiss : truthyStr req.body.model = false ∨ req.body.messages = none) :
    (handle env req u).status = 400 ∧
      (handle env req u).body =
        Body.json (errBodyMsg "Bad request" "Missing required fields: model and messages") ∧
      (handle env req u).sent = none := by
  have hf : missingFields req.body = true := by
    rcases hmiss with h | h <;> simp [missingFields, h]
  simp [handle, hm, hk, hf]

/-- C6 witness: `messages` absent. -/
theorem c6_validation_witness :
    (handle envOK ⟨"POST", { validBody with messages := none }⟩
        ⟨200, "", Json.null, none⟩).status = 400 ∧
    (handle envOK ⟨"POST", { validBody with messages := none }⟩
        ⟨200, "", Json.null, none⟩).body =
      Body.json (errBodyMsg "Bad request" "Missing required fields: model and messages") ∧
    (handle envOK ⟨"POST", { validBody with messages := none }⟩
        ⟨200, "", Json.null, none⟩).sent = none :=
  c6_validation envOK ⟨"POST", { validBody with messages := none }⟩ ⟨200, "", Json.null, none⟩
    rfl (by decide) (Or.inr rfl)

/-- C7 (counterexample): the streamed response does not carry
`Access-Control-Allow-Headers: Content-Type, Authorization` — the streaming
header reissue overwrites it with plain `Content-Type`. -/
theorem c7_counterexample :
    getHeader (handle envOK ⟨"POST", streamBody⟩ (uStream [] StreamTail.eof)).headers
        "Access-Control-Allow-Headers" ≠ some "Content-Type, Authorization" ∧
    getHeader (handle envOK ⟨"POST", streamBody⟩ (uStream [] StreamTail.eof)).headers
        "Access-Control-Allow-Headers" = some "Content-Type" := by
  decide

/-- C7 (amended): every response carries CORS headers permitting any origin
and methods `GET, POST, OPTIONS`; the allowed-headers value is
`Content-Type, Authorization` on every path except after the streaming
header reissue (valid streaming POST whose upstream returned success), where
it is overwritten with `Content-Type`. -/
theorem c7_cors_headers (env : Env) (req : Request) (u : UpstreamResp) :
    getHeader (handle env req u).headers "Access-Control-Allow-Origin" = some "*" ∧
    getHeader (handle env req u).headers "Access-Control-Allow-Methods"
      = some "GET, POST, OPTIONS" ∧
    getHeader (handle env req u).headers "Access-Control-Allow-Headers"
      = some (if streamPathB env req u then "Content-Type"
              else "Content-Type, Authorization") := by
  rw [handle_headers_eq]
  cases h : streamPathB env req u <;> simp [h] <;> decide

/-- C8: every request whose method is neither POST nor OPTIONS gets a 405
with body exactly `{error: "Method not allowed"}` and no upstream call. -/
theorem c8_method_gate (env : Env) (req : Request) (u : UpstreamResp)
    (h1 : req.method ≠ "OPTIONS") (h2 : req.method ≠ "POST") :
    (handle env req u).status = 405 ∧
      (handle env req u).body = Body.json (errBody "Method not allowed") ∧
      (handle env req u).sent = none := by
  simp [handle, h1, h2]

/-- C8 witness: a GET request. -/
theorem c8_method_gate_witness :
    (handle envOK ⟨"GET", validBody⟩ uDoc).status = 405 ∧
    (handle envOK ⟨"GET", validBody⟩ uDoc).body = Body.json (errBody "Method not allowed") ∧
    (handle envOK ⟨"GET", validBody⟩ uDoc).sent = none :=
  c8_method_gate envOK ⟨"GET", validBody⟩ uDoc (by decide) (by decide)

/-- C9 (counterexample): the reflection-marker instrumentation does affect
the response.  Against the same 200 upstream whose JSON document is `null`,
a marker-bearing request gets a 500 (the response-analysis block throws on
`data.choices`) while its marker-free twin gets 200. -/
theorem c9_counterexample :
    (handle envOK ⟨"POST", { validBody with messages := some [⟨some "Chain of Draft"⟩] }⟩
        ⟨200, "", Json.null, none⟩).status = 500 ∧
    (handle envOK ⟨"POST", { validBody with messages := some [⟨some "plain"⟩] }⟩
        ⟨200, "", Json.null, none⟩).status = 200 ∧
    (handle envOK ⟨"POST", { validBody with messages := some [⟨some "Chain of Draft"⟩] }⟩
          ⟨200, "", Json.null, none⟩).status ≠
      (handle envOK ⟨"POST", { validBody with messages := some [⟨some "plain"⟩] }⟩
          ⟨200, "", Json.null, none⟩).status := by
  decide

/-- C9 (amended): the instrumentation affects the response only through the
response-analysis throw.  Two requests identical except for their message
contents — in particular when the Chain-of-Draft detection fires on one and
not the other — produce the same status, headers, body, and stream bytes
for the same upstream response whenever the analysis block throws for both
or for neither (so always on the streaming path, on every upstream-error
path, and on every success document whose content path is falsy or a
string); everything else the detection feeds is logging only. -/
theorem c9_cod_no_effect (env : Env) (meth : String) (b : ReqBody) (u : UpstreamResp)
    (m1 m2 : List Message) (_hcod : hasAdvancedCoD m1 ≠ hasAdvancedCoD m2)
    (heq : codAnalysisThrows m1 u.bodyJson = codAnalysisThrows m2 u.bodyJson) :
    (handle env ⟨meth, { b with messages := some m1 }⟩ u).status =
      (handle env ⟨meth, { b with messages := some m2 }⟩ u).status ∧
    (handle env ⟨meth, { b with messages := some m1 }⟩ u).headers =
      (handle env ⟨meth, { b with messages := some m2 }⟩ u).headers ∧
    (handle env ⟨meth, { b with messages := some m1 }⟩ u).body =
      (handle env ⟨meth, { b with messages := some m2 }⟩ u).body ∧
    (handle env ⟨meth, { b with messages := some m1 }⟩ u).wire =
      (handle env ⟨meth, { b with messages := some m2 }⟩ u).wire :=
  handle_resp_messages env meth b u m1 m2 heq

/-- C9 witness: a marker-bearing message list versus a plain one (the
detection differs, the analysis throws for neither), same response. -/
theorem c9_cod_no_effect_witness :
    (handle envOK ⟨"POST", { validBody with messages := some [⟨some "Chain of Draft"⟩] }⟩
        uDoc).status =
      (handle envOK ⟨"POST", { validBody with messages := some [⟨some "plain"⟩] }⟩
        uDoc).status ∧
    (handle envOK ⟨"POST", { validBody with messages := some [⟨some "Chain of Draft"⟩] }⟩
        uDoc).headers =
      (handle envOK ⟨"POST", { validBody with messages := some [⟨some "plain"⟩] }⟩
        uDoc).headers ∧
    (handle envOK ⟨"POST", { validBody with messages := some [⟨some "Chain of Draft"⟩] }⟩
        uDoc).body =
      (handle envOK ⟨"POST", { validBody with messages := some [⟨some "plain"⟩] }⟩
        uDoc).body ∧
    (handle envOK ⟨"POST", { validBody with messages := some [⟨some "Chain of Draft"⟩] }⟩
        uDoc).wire =
      (handle envOK ⟨"POST", { validBody with messages := some [⟨some "plain"⟩] }⟩
        uDoc).wire :=
  c9_cod_no_effect envOK "POST" validBody uDoc [⟨some "Chain of Draft"⟩] [⟨some "plain"⟩]
    (by decide) (by decide)

/-- C10: the credential check precedes field validation — a POST made while
the credential is absent gets the 500 configuration error (never a 400, even
when `model`/`messages` are also missing) and no upstream call is made. -/
theorem c10_credential_first (env : Env) (req : Request) (u : UpstreamResp)
    (hm : req.method = "POST") (hk : env.apiKey = none) :
    (handle env req u).status = 500 ∧
      (handle env req u).body = Body.json (errBodyMsg "Server configuration error"
        "API key not configured. Please check server environment variables.") ∧
      (handle env req u).status ≠ 400 ∧
      (handle env req u).sent = none := by
  simp [handle, hm, hk, truthyStr]

/-- C10 witness: credential absent *and* both required fields missing —
still 500, not 400. -/
theorem c10_credential_first_witness :
    (handle envNoKey ⟨"POST", { validBody with model := none, messages := none }⟩
        uDoc).status = 500 ∧
    (handle envNoKey ⟨"POST", { validBody with model := none, messages := none }⟩
        uDoc).body = Body.json (errBodyMsg "Server configuration error"
      "API key not configured. Please check server environment variables.") ∧
    (handle envNoKey ⟨"POST", { validBody with model := none, messages := none }⟩
        uDoc).status ≠ 400 ∧
    (handle envNoKey ⟨"POST", { validBody with model := none, messages := none }⟩
        uDoc).sent = none :=
  c10_credential_first envNoKey ⟨"POST", { validBody with model := none, messages := none }⟩
    uDoc rfl rfl
